import Mathlib

/-!
# Verification of the static file server in `server.py`

The program is a minimal HTTP static file server.  Its request handler
(`handle_static` in `server.py`) is:

```python
async def handle_static(request):
    file_path = request.path.strip('/')
    if not file_path:
        file_path = 'gpu-stats.html'
    if os.path.exists(file_path):
        return web.FileResponse(file_path)
    return web.Response(status=404)
```

and the single route registration is `app.router.add_get('/{tail:.*}', handle_static)`.

We embed this shallowly: the filesystem is an explicit finite association
list from path strings to entries (regular file with byte contents,
existing-but-unreadable file, or directory); the handler is a pure function
of the filesystem and the request path.
-/

/-- A filesystem entry: a regular readable file with its byte contents,
a file that exists but whose read fails (permission denied / I/O error),
or a directory.  `os.path.exists` is true for all three. -/
inductive Entry where
  | file (contents : List Nat)
  | unreadableFile
  | dir
deriving DecidableEq, Repr

/-- The filesystem visible to the process: a finite map from path strings
(relative to the working directory, or escaping it via `..` segments) to
entries. -/
structure FS where
  entries : List (String × Entry)
deriving DecidableEq, Repr

/-- Look up the entry at a path. -/
def FS.lookup (fs : FS) (p : String) : Option Entry :=
  fs.entries.lookup p

/-- `os.path.exists p`: true iff the path names any filesystem entry
(regular file, unreadable file, or directory). -/
def FS.pathExists (fs : FS) (p : String) : Bool :=
  (fs.lookup p).isSome

/-- Python's `s.strip('/')` on the underlying character list: remove every
leading and every trailing `'/'` character. -/
def pyStripSlashesList (l : List Char) : List Char :=
  ((l.dropWhile (· == '/')).reverse.dropWhile (· == '/')).reverse

/-- Python's `s.strip('/')`: remove all leading and trailing `'/'` characters. -/
def pyStripSlashes (s : String) : String :=
  String.mk (pyStripSlashesList s.data)

/-- Lines 13–15 of `server.py`:
`file_path = request.path.strip('/')`, and
`if not file_path: file_path = 'gpu-stats.html'`. -/
def resolve (path : String) : String :=
  let file_path := pyStripSlashes path
  if file_path = "" then "gpu-stats.html" else file_path

/-- What `handle_static` returns to the HTTP layer: either
`web.FileResponse(file_path)` or `web.Response(status=404)`. -/
inductive HandlerAction where
  | fileResponse (path : String)
  | status404
deriving DecidableEq, Repr

/-- The body of `handle_static` (lines 13–18 of `server.py`): resolve the
request path, then return a `FileResponse` if the resolved path exists on
disk, and a 404 response otherwise. -/
def handle_static (fs : FS) (path : String) : HandlerAction :=
  if fs.pathExists (resolve path) then
    HandlerAction.fileResponse (resolve path)
  else
    HandlerAction.status404

/-- An HTTP response: status code and body bytes. -/
structure Response where
  status : Nat
  body : List Nat
deriving DecidableEq, Repr

/-- Serialization of the handler's return value into the HTTP response sent
on the wire.  `web.Response(status=404)` carries status 404 and an empty
body.  `web.FileResponse p` on a regular readable file sends status 200 and
the file's exact bytes.
Modelled from the spec: for a path that exists but is not a readable regular
file (directory, permission denied, I/O error), the library layer that
converts the handler's raised exception into a response is aiohttp code not
in this repository; the spec maps these to a server-error status, contained
in the request handler and never fatal to the process, so this case yields
status 500 with an empty body. -/
def runAction (fs : FS) : HandlerAction → Response
  | HandlerAction.fileResponse p =>
    match fs.lookup p with
    | some (Entry.file c) => ⟨200, c⟩
    | some Entry.unreadableFile => ⟨500, []⟩
    | some Entry.dir => ⟨500, []⟩
    | none => ⟨500, []⟩
  | HandlerAction.status404 => ⟨404, []⟩

/-- The complete response of the server to one request path. -/
def fullResponse (fs : FS) (p : String) : Response :=
  runAction fs (handle_static fs p)

/-- The handler with the filesystem state threaded explicitly.  The source
handler performs only reads (`os.path.exists` and the file read inside
`FileResponse`) and touches no module-level mutable state, so the state
component is returned unchanged. -/
def handleReq (fs : FS) (p : String) : Response × FS :=
  (fullResponse fs p, fs)

/-- The path pattern of the one registered route, `'/{tail:.*}'` (line 21 of
`server.py`): it compiles to the anchored regex `^/(?P<tail>.*)$`, which
matches exactly the strings that start with `'/'`. -/
def wildcardRouteMatches (path : String) : Bool :=
  "/".data.isPrefixOf path.data

/-- Modelled from the spec: the HTTP dispatch layer (aiohttp's router and
server loop) is not part of this repository; per the spec, every inbound
request, whatever its method, is effectively funneled through the single
wildcard route to the static handler, so dispatch ignores the method and
invokes the handler on the request path. -/
def dispatch (fs : FS) (_method : String) (path : String) : Response :=
  fullResponse fs path

/-- A relative path whose first segment is the parent-directory segment
resolves outside the serving root (the process working directory). -/
def escapesRoot (p : String) : Bool :=
  "../".data.isPrefixOf p.data

/-! ## Helper lemmas -/

/-- The head of `dropWhile p l`, when present, fails `p`. -/
theorem head?_dropWhile_not (p : Char → Bool) (l : List Char) (x : Char)
    (h : (l.dropWhile p).head? = some x) : p x = false := by
  induction l with
  | nil => simp [List.dropWhile] at h
  | cons a t ih =>
    rw [List.dropWhile_cons] at h
    by_cases hpa : p a = true
    · rw [if_pos hpa] at h
      exact ih h
    · rw [if_neg hpa, List.head?_cons] at h
      injection h with h2
      subst h2
      simpa using hpa

/-- Reversal swaps `getLast?` and `head?`. -/
theorem getLast?_rev (m : List Char) : m.reverse.getLast? = m.head? := by
  rw [← List.head?_reverse, List.reverse_reverse]

/-- Stripping removes exactly a run of leading and a run of trailing
slashes: the original list is a block of slashes, the stripped list, and
another block of slashes. -/
theorem pyStripSlashesList_decomp (l : List Char) :
    ∃ m n, l = List.replicate m '/' ++ pyStripSlashesList l ++ List.replicate n '/' := by
  obtain ⟨m, hm⟩ : ∃ m, l.takeWhile (· == '/') = List.replicate m '/' := by
    refine ⟨(l.takeWhile (· == '/')).length, List.eq_replicate_of_mem ?_⟩
    intro b hb
    simpa using List.mem_takeWhile_imp hb
  obtain ⟨n, hn⟩ : ∃ n, (l.dropWhile (· == '/')).reverse.takeWhile (· == '/')
      = List.replicate n '/' := by
    refine ⟨((l.dropWhile (· == '/')).reverse.takeWhile (· == '/')).length,
      List.eq_replicate_of_mem ?_⟩
    intro b hb
    simpa using List.mem_takeWhile_imp hb
  refine ⟨m, n, ?_⟩
  have h4 := congrArg List.reverse
    (List.takeWhile_append_dropWhile (· == '/') (l.dropWhile (· == '/')).reverse)
  rw [List.reverse_append, hn, List.reverse_reverse, List.reverse_replicate] at h4
  conv_lhs => rw [← List.takeWhile_append_dropWhile (· == '/') l, hm, ← h4]
  rw [List.append_assoc]
  rfl

/-- The stripped list does not end with a slash. -/
theorem pyStripSlashesList_getLast (l : List Char) (x : Char)
    (h : (pyStripSlashesList l).getLast? = some x) : x ≠ '/' := by
  unfold pyStripSlashesList at h
  rw [getLast?_rev] at h
  have := head?_dropWhile_not (· == '/') _ x h
  simpa using this

/-- The stripped list does not start with a slash. -/
theorem pyStripSlashesList_head (l : List Char) (x : Char)
    (h : (pyStripSlashesList l).head? = some x) : x ≠ '/' := by
  unfold pyStripSlashesList at h
  rw [List.head?_reverse] at h
  obtain ⟨t, ht⟩ := List.dropWhile_suffix (l := (l.dropWhile (· == '/')).reverse) (· == '/')
  have hne : (l.dropWhile (· == '/')).reverse.dropWhile (· == '/') ≠ [] := by
    intro hn
    rw [hn] at h
    simp at h
  have hlast : (l.dropWhile (· == '/')).reverse.getLast? = some x := by
    rw [← ht, List.getLast?_append_of_ne_nil t hne]
    exact h
  rw [getLast?_rev] at hlast
  have := head?_dropWhile_not (· == '/') l x hlast
  simpa using this

/-- If the stripped request path is nonempty and names a regular file, the
full response is 200 with that file's bytes. -/
theorem serve_file_of_lookup (fs : FS) (P : String) (c : List Nat)
    (hne : pyStripSlashes P ≠ "")
    (h : fs.lookup (pyStripSlashes P) = some (Entry.file c)) :
    fullResponse fs P = ⟨200, c⟩ := by
  have hres : resolve P = pyStripSlashes P := by
    unfold resolve
    simp [hne]
  have hex : fs.pathExists (pyStripSlashes P) = true := by
    unfold FS.pathExists
    rw [h]
    rfl
  unfold fullResponse handle_static
  rw [hres, hex]
  simp [runAction, h]

/-! ## Concrete filesystems used by the witness theorems -/

/-- A filesystem with one regular file `a.txt` containing bytes `hi`. -/
def fsA : FS := ⟨[("a.txt", Entry.file [104, 105])]⟩

/-- The empty filesystem. -/
def fsEmpty : FS := ⟨[]⟩

/-- A filesystem whose only entry lies outside the serving root. -/
def fsSecret : FS := ⟨[("../secret.txt", Entry.file [115, 51, 99])]⟩

/-- A filesystem with one file that exists but cannot be read. -/
def fsLocked : FS := ⟨[("locked.txt", Entry.unreadableFile)]⟩

/-- A filesystem with one directory entry. -/
def fsDir : FS := ⟨[("assets", Entry.dir)]⟩

/-! ## The claims -/

/-- C1: every request path whose slash-stripped form is nonempty and names an
existing regular file on disk is answered with success status 200 and a body
equal to that file's exact byte contents. -/
theorem file_request_served_exact (fs : FS) (P : String) (c : List Nat)
    (hne : pyStripSlashes P ≠ "")
    (h : fs.lookup (pyStripSlashes P) = some (Entry.file c)) :
    fullResponse fs P = ⟨200, c⟩ :=
  serve_file_of_lookup fs P c hne h

/-- Witness for C1 at a concrete input. -/
theorem file_request_served_exact_check :
    fullResponse fsA "/a.txt" = ⟨200, [104, 105]⟩ :=
  file_request_served_exact fsA "/a.txt" [104, 105] (by decide) (by decide)

/-- C2: a request path that does not resolve (after stripping and default
substitution) to any existing filesystem entry is answered with not-found
status 404 and an empty body; the handler is a total function, so the
outcome is never fatal. -/
theorem missing_resolves_not_found (fs : FS) (P : String)
    (h : fs.pathExists (resolve P) = false) :
    fullResponse fs P = ⟨404, []⟩ := by
  unfold fullResponse handle_static
  rw [h]
  rfl

/-- Witness for C2 at a concrete input. -/
theorem missing_resolves_not_found_check :
    fullResponse fsEmpty "/missing.txt" = ⟨404, []⟩ :=
  missing_resolves_not_found fsEmpty "/missing.txt" (by decide)

/-- C3: for any fixed filesystem, the response to the root path `/` is
identical to the response to requesting `/gpu-stats.html` directly. -/
theorem root_same_as_default_document (fs : FS) :
    fullResponse fs "/" = fullResponse fs "/gpu-stats.html" :=
  rfl

/-- C4: resolution performs no traversal sanitization beyond separator
stripping: the request `/../secret.txt` resolves to `../secret.txt`, a path
that escapes the serving root, and when such a file exists outside the root
its exact contents are served with status 200. -/
theorem traversal_escape_served (fs : FS) (c : List Nat)
    (h : fs.lookup "../secret.txt" = some (Entry.file c)) :
    resolve "/../secret.txt" = "../secret.txt"
    ∧ escapesRoot (resolve "/../secret.txt") = true
    ∧ fullResponse fs "/../secret.txt" = ⟨200, c⟩ := by
  refine ⟨by decide, by decide, ?_⟩
  have hs : pyStripSlashes "/../secret.txt" = "../secret.txt" := by decide
  refine serve_file_of_lookup fs "/../secret.txt" c ?_ ?_
  · rw [hs]
    decide
  · rw [hs]
    exact h

/-- Witness for C4 at a concrete input. -/
theorem traversal_escape_served_check :
    resolve "/../secret.txt" = "../secret.txt"
    ∧ escapesRoot (resolve "/../secret.txt") = true
    ∧ fullResponse fsSecret "/../secret.txt" = ⟨200, [115, 51, 99]⟩ :=
  traversal_escape_served fsSecret [115, 51, 99] (by decide)

/-- C5: resolution follows exactly the spec's steps: the request path is a
run of leading slashes, then the stripped relative path (which neither
starts nor ends with a slash), then a run of trailing slashes; the stripped
path is replaced by the default filename exactly when it is empty; and the
handler's branch is decided by an existence check on this resolved path. -/
theorem resolution_steps_exact (P : String) (fs : FS) :
    (∃ m n, P.data = List.replicate m '/' ++ (pyStripSlashes P).data ++ List.replicate n '/')
    ∧ (∀ x, (pyStripSlashes P).data.head? = some x → x ≠ '/')
    ∧ (∀ x, (pyStripSlashes P).data.getLast? = some x → x ≠ '/')
    ∧ resolve P = (if pyStripSlashes P = "" then "gpu-stats.html" else pyStripSlashes P)
    ∧ handle_static fs P
        = (if fs.pathExists (resolve P) then HandlerAction.fileResponse (resolve P)
           else HandlerAction.status404) := by
  refine ⟨pyStripSlashesList_decomp P.data, ?_, ?_, rfl, rfl⟩
  · intro x hx
    exact pyStripSlashesList_head P.data x hx
  · intro x hx
    exact pyStripSlashesList_getLast P.data x hx

/-- C6: when the resolved path exists but its read fails (permission denied,
I/O error), the response has server-error status 500; the handler is a total
function, so the error is contained and never crashes the serving process. -/
theorem read_failure_server_error (fs : FS) (P : String)
    (h : fs.lookup (resolve P) = some Entry.unreadableFile) :
    fullResponse fs P = ⟨500, []⟩ := by
  have hex : fs.pathExists (resolve P) = true := by
    unfold FS.pathExists
    rw [h]
    rfl
  unfold fullResponse handle_static
  rw [hex]
  simp [runAction, h]

/-- Witness for C6 at a concrete input. -/
theorem read_failure_server_error_check :
    fullResponse fsLocked "/locked.txt" = ⟨500, []⟩ :=
  read_failure_server_error fsLocked "/locked.txt" (by decide)

/-- C7: the handler is deterministic, idempotent and stateless: it returns
the filesystem state unchanged, and a second identical invocation on the
state it leaves behind returns a byte-identical response. -/
theorem handler_stateless_deterministic (fs : FS) (p : String) :
    (handleReq fs p).2 = fs
    ∧ (handleReq (handleReq fs p).2 p).1 = (handleReq fs p).1 :=
  ⟨rfl, rfl⟩

/-- C8: the single registered route's wildcard pattern matches every HTTP
request path (every path beginning with a slash), and dispatch funnels every
request, regardless of its method, to the static handler. -/
theorem single_wildcard_route_handles_all (fs : FS) (m p : String)
    (h : p.data.head? = some '/') :
    wildcardRouteMatches p = true
    ∧ dispatch fs m p = runAction fs (handle_static fs p) := by
  refine ⟨?_, rfl⟩
  unfold wildcardRouteMatches
  cases hd : p.data with
  | nil =>
    rw [hd] at h
    simp at h
  | cons a t =>
    rw [hd] at h
    rw [List.head?_cons] at h
    injection h with h2
    subst h2
    simp [List.isPrefixOf]

/-- Witness for C8 at a concrete input (a non-GET method string). -/
theorem single_wildcard_route_handles_all_check :
    wildcardRouteMatches "/x" = true
    ∧ dispatch fsA "POST" "/x" = runAction fsA (handle_static fsA "/x") :=
  single_wildcard_route_handles_all fsA "POST" "/x" (by decide)

/-- C9: the existence check accepts any filesystem entry: a request path
resolving to an existing directory does not take the not-found branch; the
handler returns a file response on the directory path. -/
theorem directory_takes_file_branch (fs : FS) (P : String)
    (h : fs.lookup (resolve P) = some Entry.dir) :
    handle_static fs P = HandlerAction.fileResponse (resolve P) := by
  have hex : fs.pathExists (resolve P) = true := by
    unfold FS.pathExists
    rw [h]
    rfl
  unfold handle_static
  rw [hex]
  rfl

/-- Witness for C9 at a concrete input. -/
theorem directory_takes_file_branch_check :
    handle_static fsDir "/assets" = HandlerAction.fileResponse "assets" :=
  directory_takes_file_branch fsDir "/assets" (by decide)

/-- C10: the handler is total on the empty request path: stripping the empty
string yields the empty relative path, the default document is substituted,
and the response equals the response to the root path. -/
theorem empty_path_handled (fs : FS) :
    resolve "" = "gpu-stats.html" ∧ fullResponse fs "" = fullResponse fs "/" :=
  ⟨rfl, rfl⟩
